import Mathlib

/-!
Shallow embedding of the cinema booking backend (src/cinema/serializers.py
and src/cinema/views.py): the order/ticket placement path with seat
validation, the session read projections, order ownership, and movie
filtering. Stored entities are records; the persistent store is a record
of lists; fallible operations return `Except`.
-/

/-- A cinema hall: `rows` × `seats_in_row` seat grid (src/cinema models;
fields used by `TicketSerializer.validate`). Integers are modelled as `Int`
(Python ints). -/
structure CinemaHall where
  id : Nat
  rows : Int
  seats_in_row : Int
deriving DecidableEq, Repr

/-- Modelled from the spec: `cinema/models.py` is not under src/; spec §3
defines the derived capacity as `rows * seats_in_row`. -/
def CinemaHall.capacity (h : CinemaHall) : Int :=
  h.rows * h.seats_in_row

/-- A movie session, holding its hall (the fields the order path reads). -/
structure MovieSession where
  id : Nat
  cinema_hall : CinemaHall
deriving DecidableEq, Repr

/-- A persisted ticket row: (row, seat), its session id and owning order id. -/
structure Ticket where
  row : Int
  seat : Int
  movie_session : Nat
  order : Nat
deriving DecidableEq, Repr

/-- A persisted order row: id and owning user identity. -/
structure Order where
  id : Nat
  user : Nat
deriving DecidableEq, Repr

/-- The persistent store: sessions, tickets and orders, plus the next
fresh order id. -/
structure Store where
  sessions : List MovieSession
  tickets : List Ticket
  orders : List Order
  nextOrderId : Nat
deriving DecidableEq, Repr

/-- A validated ticket request: `movie_session` is already resolved (DRF
`PrimaryKeyRelatedField` resolves the id to a session before
`TicketSerializer.validate` runs). -/
structure TicketData where
  movie_session : MovieSession
  row : Int
  seat : Int
deriving DecidableEq, Repr

/-- One ticket's rejection, mirroring the three `ValidationError`s of
`TicketSerializer.validate` (the dict key of each error is the field
it is raised on). -/
inductive TicketError where
  | rowOutOfRange (row rows : Int)
  | seatOutOfRange (seat seats_in_row : Int)
  | seatTaken (row seat : Int)
deriving DecidableEq, Repr

/-- Embeds `Ticket.objects.filter(movie_session=.., row=.., seat=..).exists()`
(src/cinema/serializers.py lines 149–151): a committed ticket with this
(session, row, seat) exists in the store. -/
def ticketExists (store : Store) (sessionId : Nat) (row seat : Int) : Bool :=
  store.tickets.any fun t =>
    t.movie_session = sessionId && t.row = row && t.seat = seat

/-- Geometry part of `TicketSerializer.validate`
(src/cinema/serializers.py lines 128–146), the spec's §4.1 `validate_seat`:
row checked first, then seat, each against the hall's bounds. -/
def validate_seat (cinema_hall : CinemaHall) (row seat : Int) :
    Except TicketError Unit :=
  if row < 1 ∨ row > cinema_hall.rows then
    .error (.rowOutOfRange row cinema_hall.rows)
  else if seat < 1 ∨ seat > cinema_hall.seats_in_row then
    .error (.seatOutOfRange seat cinema_hall.seats_in_row)
  else
    .ok ()

/-- Embeds `TicketSerializer.validate` (src/cinema/serializers.py lines
120–161): geometry bounds against the session's own hall, then the
taken-seat check against the committed tickets of the store. -/
def TicketSerializer.validate (store : Store) (data : TicketData) :
    Except TicketError TicketData :=
  match validate_seat data.movie_session.cinema_hall data.row data.seat with
  | .error e => .error e
  | .ok _ =>
    if ticketExists store data.movie_session.id data.row data.seat then
      .error (.seatTaken data.row data.seat)
    else
      .ok data

/-- An order-creation rejection: `emptyOrder` from the tickets field's
`allow_empty=False`, or the first failing ticket's index and error. -/
inductive OrderRejection where
  | emptyOrder
  | ticketError (index : Nat) (e : TicketError)
deriving DecidableEq, Repr

/-- Per-request ticket validation loop: each request is validated by
`TicketSerializer.validate` against the committed store only (the source's
taken-check queries `Ticket.objects`, never the earlier requests of the
same batch). Modelled from the spec: the iteration over the batch is DRF
list-dispatch glue not under src/; spec §4.3/§7 fix it as in-input-order
and fail-fast, returning the first rejection with its index. -/
def validateTickets (store : Store) :
    List TicketData → Nat → Except OrderRejection (List TicketData)
  | [], _ => .ok []
  | d :: ds, i =>
    match TicketSerializer.validate store d with
    | .error e => .error (.ticketError i e)
    | .ok d' =>
      match validateTickets store ds (i + 1) with
      | .error e => .error e
      | .ok ds' => .ok (d' :: ds')

/-- Embeds `OrderSerializer.create` (src/cinema/serializers.py lines
188–200): inside one transaction, create the order for the user, then
insert one ticket per validated request referencing it. Modelled from the
spec for the insert step only: `cinema/models.py` is not under src/ and
spec §9 records that the commit path has no database-level uniqueness
constraint, so every insert succeeds. -/
def OrderSerializer.create (store : Store) (user : Nat)
    (tickets_data : List TicketData) : Store × Order :=
  let order : Order := ⟨store.nextOrderId, user⟩
  let newTickets := tickets_data.map fun d =>
    Ticket.mk d.row d.seat d.movie_session.id order.id
  (⟨store.sessions, store.tickets ++ newTickets,
    store.orders ++ [order], store.nextOrderId + 1⟩, order)

/-- Validation phase of one order-creation request (DRF `is_valid`, which
runs before `save`/`create` and outside any transaction): the tickets
field has `allow_empty=False` (src/cinema/serializers.py line 178), so an
empty batch is rejected first; otherwise every request is validated in
input order. -/
def validatePhase (store : Store) (reqs : List TicketData) :
    Except OrderRejection (List TicketData) :=
  if reqs.isEmpty then .error .emptyOrder
  else validateTickets store reqs 0

/-- Embeds the spec's §4.3 `create_order`: the request path through
`OrderSerializer` — the validation phase, then, only if all requests pass,
`OrderSerializer.create`. On rejection the store is returned unchanged (no
write has happened yet; the writes sit inside `transaction.atomic`). -/
def create_order (store : Store) (user : Nat) (reqs : List TicketData) :
    Store × Except OrderRejection Order :=
  match validatePhase store reqs with
  | .error e => (store, .error e)
  | .ok ds =>
    let (store', order) := OrderSerializer.create store user ds
    (store', .ok order)

/-- Embeds `MovieSessionListSerializer.get_tickets_available`
(src/cinema/serializers.py lines 83–86): hall capacity minus the count of
persisted tickets filtered on this session. -/
def MovieSessionListSerializer.get_tickets_available (store : Store)
    (obj : MovieSession) : Int :=
  let total_capacity := obj.cinema_hall.capacity
  let tickets_sold :=
    (store.tickets.filter fun t => t.movie_session = obj.id).length
  total_capacity - (tickets_sold : Int)

/-- Embeds `OrdersViewSet.get_queryset` (src/cinema/views.py lines
112–113): `Order.objects.filter(user=self.request.user)`. -/
def OrdersViewSet.get_queryset (store : Store) (user : Nat) : List Order :=
  store.orders.filter fun o => o.user = user

/-- Embeds `OrdersViewSet.perform_create` (src/cinema/views.py lines
121–122): `serializer.save(user=self.request.user)` — runs the
order-creation path with the authenticated request user as the owner. -/
def OrdersViewSet.perform_create (store : Store) (user : Nat)
    (reqs : List TicketData) : Store × Except OrderRejection Order :=
  create_order store user reqs

/-- A movie row: its title and the ids of its related genres and actors
(the fields `MovieViewSet.filter_queryset` reads). -/
structure Movie where
  id : Nat
  title : String
  genres : List Nat
  actors : List Nat
deriving DecidableEq, Repr

/-- The empty string. -/
def emptyStr : String := ""

/-- Splits a character list at every comma, embedding Python
`genres.split(",")`: `n` commas yield `n + 1` tokens, empty tokens
included. -/
def splitCommaChars : List Char → List (List Char)
  | [] => [[]]
  | c :: cs =>
    if c = ',' then [] :: splitCommaChars cs
    else
      match splitCommaChars cs with
      | [] => [[c]]
      | t :: ts => (c :: t) :: ts

/-- Python `genres.split(",")` on a string. -/
def pySplit (s : String) : List String :=
  (splitCommaChars s.toList).map fun cs => String.mk cs

/-- Codepoint ranges of the Unicode characters with Numeric_Type=Decimal —
the characters Python `int()` accepts as base-10 digits; within each range
the decimal value of a character is its codepoint minus the range start.
Taken from the Unicode character database as exposed by CPython's
`unicodedata`. -/
def decimalRanges : List (Nat × Nat) := [
  (48, 57), (1632, 1641), (1776, 1785), (1984, 1993), (2406, 2415),
  (2534, 2543), (2662, 2671), (2790, 2799), (2918, 2927), (3046, 3055),
  (3174, 3183), (3302, 3311), (3430, 3439), (3558, 3567), (3664, 3673),
  (3792, 3801), (3872, 3881), (4160, 4169), (4240, 4249), (6112, 6121),
  (6160, 6169), (6470, 6479), (6608, 6617), (6784, 6793), (6800, 6809),
  (6992, 7001), (7088, 7097), (7232, 7241), (7248, 7257), (42528, 42537),
  (43216, 43225), (43264, 43273), (43472, 43481), (43504, 43513),
  (43600, 43609), (44016, 44025), (65296, 65305), (66720, 66729),
  (68912, 68921), (69734, 69743), (69872, 69881), (69942, 69951),
  (70096, 70105), (70384, 70393), (70736, 70745), (70864, 70873),
  (71248, 71257), (71360, 71369), (71472, 71481), (71904, 71913),
  (72016, 72025), (72784, 72793), (73040, 73049), (73120, 73129),
  (92768, 92777), (92864, 92873), (93008, 93017), (120782, 120791),
  (120792, 120801), (120802, 120811), (120812, 120821), (120822, 120831),
  (123200, 123209), (123632, 123641), (125264, 125273), (130032, 130041)]

/-- Codepoint ranges of the Unicode characters with Numeric_Type=Digit but
not Decimal (superscripts, circled digits, …): Python `str.isdigit()`
accepts them but `int()` raises ValueError on them. Taken from the Unicode
character database as exposed by CPython's `unicodedata`. -/
def digitOnlyRanges : List (Nat × Nat) := [
  (178, 179), (185, 185), (4969, 4977), (6618, 6618), (8304, 8304),
  (8308, 8313), (8320, 8329), (9312, 9320), (9332, 9340), (9352, 9360),
  (9450, 9450), (9461, 9469), (9471, 9471), (10102, 10110),
  (10112, 10120), (10122, 10130), (68160, 68163), (69216, 69224),
  (69714, 69722), (127232, 127242)]

/-- Membership of a codepoint in a list of inclusive ranges. -/
def inRanges (rs : List (Nat × Nat)) (n : Nat) : Bool :=
  rs.any fun r => r.1 ≤ n && n ≤ r.2

/-- Python's per-character digit test: Numeric_Type is Decimal or Digit. -/
def pyCharIsDigit (c : Char) : Bool :=
  inRanges decimalRanges c.toNat || inRanges digitOnlyRanges c.toNat

/-- Python `str.isdigit()`: non-empty and every character a digit
(Numeric_Type Decimal or Digit, over all of Unicode). -/
def pyIsDigit (s : String) : Bool :=
  !s.isEmpty && s.toList.all pyCharIsDigit

/-- Decimal value of a Numeric_Type=Decimal character: its codepoint minus
the start of its range (0 for characters outside every range). -/
def charDecimalVal (c : Char) : Nat :=
  match decimalRanges.find? (fun r => r.1 ≤ c.toNat && c.toNat ≤ r.2) with
  | some r => c.toNat - r.1
  | none => 0

/-- Python `int(tok)` on a token that passed `isdigit`: the base-10 value
when every character is a decimal digit; `none` — modelling the ValueError
raise — when some character is digit-class but not decimal, such as a
superscript. -/
def pyInt? (s : String) : Option Nat :=
  if s.toList.all fun c => inRanges decimalRanges c.toNat then
    some (s.toList.foldl (fun acc c => acc * 10 + charDecimalVal c) 0)
  else none

/-- Embeds `[int(id) for id in genres.split(",") if id.isdigit()]`
(src/cinema/views.py lines 66, 71): split on commas, keep only the tokens
passing `isdigit`, convert each to a number; `none` models the
comprehension raising ValueError on a digit-class, non-decimal token. -/
def parseIds? (param : String) : Option (List Nat) :=
  ((pySplit param).filter pyIsDigit).mapM pyInt?

/-- Python truthiness of an optional query parameter: present and
non-empty. -/
def truthy : Option String → Bool
  | none => false
  | some s => !s.isEmpty

/-- Case-insensitive substring test, modelling Django `title__icontains`. -/
def iContains (s sub : String) : Bool :=
  let ls := s.toList.map Char.toLower
  let lsub := sub.toList.map Char.toLower
  (List.range (ls.length + 1)).any fun i => (ls.drop i).take lsub.length == lsub

/-- Embeds `MovieViewSet.filter_queryset` (src/cinema/views.py lines
51–75): optional case-insensitive title filter, then genre-id and actor-id
filters over the comma-separated digit tokens of the parameters, then
`distinct()`. Returns `none` when an id-list comprehension raises
(a digit-class, non-decimal token), propagating the uncaught exception. -/
def MovieViewSet.filter_queryset (queryset : List Movie)
    (title genres actors : Option String) : Option (List Movie) :=
  let q1 :=
    if truthy title then
      queryset.filter fun m => iContains m.title (title.getD emptyStr)
    else queryset
  match
    (if truthy genres then
      (parseIds? (genres.getD emptyStr)).map fun ids =>
        q1.filter fun m => m.genres.any fun g => ids.contains g
    else some q1) with
  | none => none
  | some q2 =>
    match
      (if truthy actors then
        (parseIds? (actors.getD emptyStr)).map fun ids =>
          q2.filter fun m => m.actors.any fun a => ids.contains a
      else some q2) with
    | none => none
    | some q3 => some q3.dedup

/-- One interleaved execution of two order-creation requests in which both
requests run their validation phase against the same initial store before
either insert transaction runs. This interleaving is possible in the
source because validation happens in DRF `is_valid`, outside the
`transaction.atomic` block of `OrderSerializer.create`, and nothing
serializes the two request handlers. Yields the final store when both
validations pass, `none` otherwise. -/
def interleavedBothValidateFirst (store : Store) (u1 u2 : Nat)
    (r1 r2 : List TicketData) : Option Store :=
  match validatePhase store r1, validatePhase store r2 with
  | .ok d1, .ok d2 =>
    let (s1, _) := OrderSerializer.create store u1 d1
    let (s2, _) := OrderSerializer.create s1 u2 d2
    some s2
  | _, _ => none

/-- Every persisted order owns at least one persisted ticket (the spec's
§3 invariant that a zero-ticket order never exists in storage). -/
def everyOrderHasTicket (s : Store) : Prop :=
  ∀ o ∈ s.orders, ∃ t ∈ s.tickets, t.order = o.id

instance (s : Store) : Decidable (everyOrderHasTicket s) := by
  unfold everyOrderHasTicket
  infer_instance

/-- Number of persisted tickets at a given (session, row, seat). -/
def ticketCountAt (s : Store) (sessionId : Nat) (row seat : Int) : Nat :=
  s.tickets.countP fun t =>
    t.movie_session = sessionId && t.row = row && t.seat = seat

/-- Concrete fixture: the spec §8 hall, 5 rows × 8 seats per row. -/
def hallA : CinemaHall := ⟨1, 5, 8⟩

/-- Concrete fixture: a session in `hallA`. -/
def sessA : MovieSession := ⟨1, hallA⟩

/-- Concrete fixture: initial store with one session, no tickets, no
orders. -/
def s0 : Store := ⟨[sessA], [], [], 0⟩

/-- Concrete fixture: a request for row 1, seat 1 of `sessA`. -/
def dA : TicketData := ⟨sessA, 1, 1⟩

/-- Concrete fixture: an out-of-range request, row 6 in a 5-row hall. -/
def dRow6 : TicketData := ⟨sessA, 6, 1⟩

/-- Concrete fixture: a request for row 3, seat 4 of `sessA`. -/
def d34 : TicketData := ⟨sessA, 3, 4⟩

/-- Concrete fixture: one movie with genres 1, 2 and actor 1. -/
def mAlien : Movie := ⟨1, "Alien", [1, 2], [1]⟩

/-- Concrete fixture: the store after user 7 successfully orders `dA`
from `s0` — one ticket at (session 1, row 1, seat 1) owned by order 0. -/
def s1 : Store := ⟨[sessA], [⟨1, 1, 1, 0⟩], [⟨0, 7⟩], 1⟩

instance {ε α : Type} [DecidableEq ε] [DecidableEq α] :
    DecidableEq (Except ε α)
  | .error a, .error b =>
    if h : a = b then .isTrue (by rw [h])
    else .isFalse (by intro hc; cases hc; exact h rfl)
  | .error _, .ok _ => .isFalse (by intro hc; cases hc)
  | .ok _, .error _ => .isFalse (by intro hc; cases hc)
  | .ok a, .ok b =>
    if h : a = b then .isTrue (by rw [h])
    else .isFalse (by intro hc; cases hc; exact h rfl)

lemma validate_ok_eq (store : Store) (d d' : TicketData)
    (h : TicketSerializer.validate store d = .ok d') : d' = d := by
  unfold TicketSerializer.validate at h
  split at h
  · cases h
  · split at h
    · cases h
    · cases h
      rfl

lemma validateTickets_ok_eq (store : Store) :
    ∀ (reqs : List TicketData) (i : Nat) (ds : List TicketData),
      validateTickets store reqs i = .ok ds → ds = reqs := by
  intro reqs
  induction reqs with
  | nil =>
    intro i ds h
    unfold validateTickets at h
    cases h
    rfl
  | cons d rest ih =>
    intro i ds h
    unfold validateTickets at h
    cases hv : TicketSerializer.validate store d with
    | error e => rw [hv] at h; cases h
    | ok d' =>
      rw [hv] at h
      cases hr : validateTickets store rest (i + 1) with
      | error e => rw [hr] at h; cases h
      | ok ds' =>
        rw [hr] at h
        cases h
        rw [validate_ok_eq store d d' hv, ih (i + 1) ds' hr]

lemma create_order_error_eq (store : Store) (user : Nat)
    (reqs : List TicketData) (e : OrderRejection)
    (h : (create_order store user reqs).2 = .error e) :
    create_order store user reqs = (store, .error e) := by
  unfold create_order at h ⊢
  cases hv : validatePhase store reqs with
  | error e' =>
    rw [hv] at h
    cases h
    rfl
  | ok ds =>
    rw [hv] at h
    cases h

lemma create_order_ok_eq (store : Store) (user : Nat)
    (reqs : List TicketData) (o : Order)
    (h : (create_order store user reqs).2 = .ok o) :
    o = ⟨store.nextOrderId, user⟩ ∧
    create_order store user reqs =
      (⟨store.sessions,
        store.tickets ++ reqs.map (fun d =>
          Ticket.mk d.row d.seat d.movie_session.id store.nextOrderId),
        store.orders ++ [o], store.nextOrderId + 1⟩, .ok o) := by
  unfold create_order at h ⊢
  cases hv : validatePhase store reqs with
  | error e =>
    rw [hv] at h
    cases h
  | ok ds =>
    have hds : ds = reqs := by
      unfold validatePhase at hv
      split at hv
      · cases hv
      · exact validateTickets_ok_eq store reqs 0 ds hv
    rw [hv] at h
    simp only [OrderSerializer.create] at h
    cases h
    subst hds
    simp [OrderSerializer.create]

lemma validateTickets_append_error (store : Store) :
    ∀ (pre : List TicketData) (d : TicketData) (post : List TicketData)
      (i : Nat) (e : TicketError),
      (∀ p ∈ pre, (TicketSerializer.validate store p).isOk = true) →
      TicketSerializer.validate store d = .error e →
      validateTickets store (pre ++ d :: post) i =
        .error (.ticketError (i + pre.length) e) := by
  intro pre
  induction pre with
  | nil =>
    intro d post i e _ hfail
    simp only [List.nil_append, validateTickets, hfail, List.length_nil,
      Nat.add_zero]
  | cons p rest ih =>
    intro d post i e hok hfail
    have hp : (TicketSerializer.validate store p).isOk = true :=
      hok p (List.mem_cons_self p rest)
    cases hv : TicketSerializer.validate store p with
    | error e0 => rw [hv] at hp; cases hp
    | ok p' =>
      have hrest := ih d post (i + 1) e
        (fun q hq => hok q (List.mem_cons_of_mem p hq)) hfail
      have harith : i + 1 + rest.length = i + (rest.length + 1) := by omega
      simp only [List.cons_append, validateTickets, hv, List.append_eq,
        hrest, harith, List.length_cons]

/-!
Claim theorems.
-/

/-- C1: the claim says a request containing a duplicate (row, seat) for the
same session — duplicate only within the request, not yet in storage — is
rejected with SeatTaken and persists nothing. The code accepts it: with an
empty store, the request [(session 1, row 1, seat 1), (session 1, row 1,
seat 1)] succeeds and persists two tickets at that seat, because
`TicketSerializer.validate` checks only committed tickets, never the
earlier requests of the same batch. -/
theorem C1_duplicate_in_request_accepted :
    (create_order s0 7 [dA, dA]).2 = .ok ⟨0, 7⟩ ∧
    ticketCountAt (create_order s0 7 [dA, dA]).1 1 1 1 = 2 := by
  decide

/-- Whether a seat-validation outcome is an out-of-range error reported on
the seat field. -/
def isSeatOutOfRange : Except TicketError Unit → Bool
  | .error (.seatOutOfRange _ _) => true
  | _ => false

/-- C2, counterexample to the claim as stated: in a 1×1 hall with row 0 and
seat 0, the seat is out of range (0 < 1) yet `validate_seat` reports the
out-of-range error on the row field, because the row check runs first. -/
theorem C2_counterexample :
    (0 : Int) < 1 ∧
    isSeatOutOfRange (validate_seat ⟨1, 1, 1⟩ 0 0) = false ∧
    validate_seat ⟨1, 1, 1⟩ 0 0 = .error (.rowOutOfRange 0 1) := by
  decide

/-- C2, amended: in-bounds (row, seat) passes `validate_seat`; an
out-of-range row yields the row-field error; an out-of-range seat yields
the seat-field error provided the row is in range (the row check has
priority). -/
theorem C2_validate_seat_cases (h : CinemaHall) (row seat : Int) :
    (1 ≤ row ∧ row ≤ h.rows ∧ 1 ≤ seat ∧ seat ≤ h.seats_in_row →
      validate_seat h row seat = .ok ()) ∧
    (row < 1 ∨ row > h.rows →
      validate_seat h row seat = .error (.rowOutOfRange row h.rows)) ∧
    (1 ≤ row ∧ row ≤ h.rows ∧ (seat < 1 ∨ seat > h.seats_in_row) →
      validate_seat h row seat =
        .error (.seatOutOfRange seat h.seats_in_row)) := by
  unfold validate_seat
  refine ⟨fun hh => ?_, fun hh => ?_, fun hh => ?_⟩
  · rw [if_neg (by omega), if_neg (by omega)]
  · rw [if_pos hh]
  · rw [if_neg (by omega), if_pos hh.2.2]

/-- Witness for C2: concrete instances of the three cases in `hallA`
(5 rows × 8 seats). -/
theorem C2_validate_seat_cases_witness :
    validate_seat hallA 2 3 = .ok () ∧
    validate_seat hallA 6 1 = .error (.rowOutOfRange 6 hallA.rows) ∧
    validate_seat hallA 1 9 = .error (.seatOutOfRange 9 hallA.seats_in_row) :=
  ⟨(C2_validate_seat_cases hallA 2 3).1 (by decide),
   (C2_validate_seat_cases hallA 6 1).2.1 (by decide),
   (C2_validate_seat_cases hallA 1 9).2.2 (by decide)⟩

/-- C3: order creation is all-or-nothing. If `create_order` rejects, the
store is returned exactly as it was — no order and no tickets from this
call. If it succeeds, the store gains the order and one ticket per
request, all referencing the new order. -/
theorem C3_all_or_nothing (store : Store) (user : Nat)
    (reqs : List TicketData) :
    (∀ e, (create_order store user reqs).2 = .error e →
      (create_order store user reqs).1 = store) ∧
    (∀ o, (create_order store user reqs).2 = .ok o →
      (create_order store user reqs).1.tickets =
        store.tickets ++ reqs.map (fun d =>
          Ticket.mk d.row d.seat d.movie_session.id store.nextOrderId) ∧
      (create_order store user reqs).1.orders = store.orders ++ [o]) := by
  constructor
  · intro e h
    rw [create_order_error_eq store user reqs e h]
  · intro o h
    obtain ⟨ho, heq⟩ := create_order_ok_eq store user reqs o h
    rw [heq]
    exact ⟨rfl, rfl⟩

/-- Witness for C3: a rejected request (row 6 of a 5-row hall) leaves the
concrete store `s0` unchanged. -/
theorem C3_all_or_nothing_witness :
    (create_order s0 7 [dRow6]).1 = s0 :=
  (C3_all_or_nothing s0 7 [dRow6]).1
    (.ticketError 0 (.rowOutOfRange 6 5)) (by decide)

/-- C4: an empty ticket list is rejected with EmptyOrder and the store is
untouched; consequently order creation preserves the invariant that every
persisted order owns at least one ticket, so a zero-ticket order never
exists in storage. -/
theorem C4_empty_order_rejected (store : Store) (user : Nat)
    (reqs : List TicketData) :
    create_order store user [] = (store, .error .emptyOrder) ∧
    (everyOrderHasTicket store →
      everyOrderHasTicket (create_order store user reqs).1) := by
  constructor
  · rfl
  · intro hinv
    cases hres : (create_order store user reqs).2 with
    | error e =>
      rw [create_order_error_eq store user reqs e hres]
      exact hinv
    | ok o =>
      have hreqs : reqs ≠ [] := by
        intro hnil
        subst hnil
        simp [create_order, validatePhase] at hres
      obtain ⟨ho, heq⟩ := create_order_ok_eq store user reqs o hres
      rw [heq]
      intro o' ho'
      simp only [List.mem_append, List.mem_singleton] at ho'
      cases ho' with
      | inl hmem =>
        obtain ⟨t, ht, hto⟩ := hinv o' hmem
        exact ⟨t, by simp only [List.mem_append]; exact Or.inl ht, hto⟩
      | inr hEq =>
        subst hEq
        obtain ⟨d, rest, rfl⟩ := List.exists_cons_of_ne_nil hreqs
        refine ⟨Ticket.mk d.row d.seat d.movie_session.id store.nextOrderId,
          ?_, ?_⟩
        · simp
        · rw [ho]

/-- Witness for C4: the empty request on the concrete store `s0`, and
invariant preservation through a successful one-ticket order. -/
theorem C4_empty_order_rejected_witness :
    create_order s0 7 [] = (s0, .error .emptyOrder) ∧
    everyOrderHasTicket (create_order s0 7 [dA]).1 :=
  ⟨(C4_empty_order_rejected s0 7 [dA]).1,
   (C4_empty_order_rejected s0 7 [dA]).2 (by decide)⟩

/-- C5: fail-fast. If every request before position `pre.length` validates
and the request at that position fails with `e`, `create_order` returns
exactly that one rejection — tagged with the offending index — no matter
what follows, and the store is unchanged. Errors of later requests are
neither computed nor combined. -/
theorem C5_first_error_returned (store : Store) (user : Nat)
    (pre post : List TicketData) (d : TicketData) (e : TicketError)
    (hok : ∀ p ∈ pre, (TicketSerializer.validate store p).isOk = true)
    (hfail : TicketSerializer.validate store d = .error e) :
    create_order store user (pre ++ d :: post) =
      (store, .error (.ticketError pre.length e)) := by
  have hv := validateTickets_append_error store pre d post 0 e hok hfail
  have hne : (pre ++ d :: post).isEmpty = false := by
    cases pre <;> rfl
  simp only [create_order, validatePhase, hne, Bool.false_eq_true,
    if_false, hv, Nat.zero_add]

/-- Witness for C5: with a valid first request, the invalid second request
(row 6 of a 5-row hall) is the rejection returned, tagged with index 1,
regardless of the third request. -/
theorem C5_first_error_returned_witness :
    create_order s0 7 ([dA] ++ dRow6 :: [d34]) =
      (s0, .error (.ticketError ([dA] : List TicketData).length
        (.rowOutOfRange 6 5))) :=
  C5_first_error_returned s0 7 [dA] [d34] dRow6 (.rowOutOfRange 6 5)
    (by decide) (by decide)

/-- C6: the session list projection reports hall capacity (rows times
seats per row) minus the number of persisted tickets referencing the
session. -/
theorem C6_tickets_available_eq (store : Store) (obj : MovieSession) :
    MovieSessionListSerializer.get_tickets_available store obj =
      obj.cinema_hall.rows * obj.cinema_hall.seats_in_row -
        (store.tickets.countP fun t => t.movie_session = obj.id) := by
  simp [MovieSessionListSerializer.get_tickets_available,
    CinemaHall.capacity, List.countP_eq_length_filter]

/-- C7: the claim says two concurrent orders for the same (session, row,
seat) end with exactly one success and one ticket. The code admits the
interleaving in which both requests validate before either inserts —
validation runs outside the insert transaction and nothing serializes the
two handlers — and there both orders commit, leaving two tickets at
(session 1, row 3, seat 4). -/
theorem C7_race_both_commit :
    (interleavedBothValidateFirst s0 7 8 [d34] [d34]).map
      (fun s => ticketCountAt s 1 3 4) = some 2 := by
  decide

/-- C8: rejection is idempotent. A rejected request leaves the store
unchanged, and replaying the identical request against the resulting store
yields the identical rejection and again no mutation. -/
theorem C8_rejection_idempotent (store : Store) (user : Nat)
    (reqs : List TicketData) (e : OrderRejection)
    (h : (create_order store user reqs).2 = .error e) :
    create_order store user reqs = (store, .error e) ∧
    create_order (create_order store user reqs).1 user reqs =
      (store, .error e) := by
  have h1 := create_order_error_eq store user reqs e h
  refine ⟨h1, ?_⟩
  rw [h1]
  exact h1

/-- Witness for C8: the out-of-range request on `s0`, rejected identically
twice with no mutation. -/
theorem C8_rejection_idempotent_witness :
    create_order s0 7 [dRow6] =
      (s0, .error (.ticketError 0 (.rowOutOfRange 6 5))) ∧
    create_order (create_order s0 7 [dRow6]).1 7 [dRow6] =
      (s0, .error (.ticketError 0 (.rowOutOfRange 6 5))) :=
  C8_rejection_idempotent s0 7 [dRow6]
    (.ticketError 0 (.rowOutOfRange 6 5)) (by decide)

/-- C9: order listing returns exactly the orders owned by the requesting
user, and an order created through the endpoint is owned by the
authenticated user who made the request. -/
theorem C9_order_ownership (store : Store) (user : Nat) (o : Order)
    (reqs : List TicketData) :
    (o ∈ OrdersViewSet.get_queryset store user ↔
      o ∈ store.orders ∧ o.user = user) ∧
    (∀ s' ord, OrdersViewSet.perform_create store user reqs = (s', .ok ord) →
      ord.user = user ∧ ord ∈ s'.orders) := by
  constructor
  · simp [OrdersViewSet.get_queryset, List.mem_filter]
  · intro s' ord hpc
    unfold OrdersViewSet.perform_create at hpc
    have h2 : (create_order store user reqs).2 = .ok ord := by rw [hpc]
    obtain ⟨ho, heq⟩ := create_order_ok_eq store user reqs ord h2
    have hs' : s' = (create_order store user reqs).1 := by rw [hpc]
    subst hs'
    rw [heq]
    constructor
    · rw [ho]
    · simp

/-- Witness for C9: user 7 orders `dA` from `s0`; the created order ⟨0, 7⟩
is owned by user 7 and present in the resulting store `s1`. -/
theorem C9_order_ownership_witness :
    (⟨0, 7⟩ : Order).user = 7 ∧ (⟨0, 7⟩ : Order) ∈ s1.orders :=
  (C9_order_ownership s0 7 ⟨0, 7⟩ [dA]).2 s1 ⟨0, 7⟩ (by decide)

/-- C10: a genres or actors parameter whose comma-separated tokens are all
non-digit is not ignored: every non-digit token is dropped, the id list
comes out empty without raising, and filtering on the empty id set yields
an empty movie list — whether the parameter is genres, actors, or both,
and for any title parameter. -/
theorem C10_nondigit_tokens_filter_empty (movies : List Movie)
    (title : Option String) (g : String)
    (hne : g.isEmpty = false)
    (hnd : ∀ tok ∈ pySplit g, pyIsDigit tok = false) :
    parseIds? g = some [] ∧
    MovieViewSet.filter_queryset movies title (some g) none = some [] ∧
    MovieViewSet.filter_queryset movies title none (some g) = some [] ∧
    MovieViewSet.filter_queryset movies title (some g) (some g) =
      some [] := by
  have hfil : (pySplit g).filter pyIsDigit = [] :=
    List.filter_eq_nil_iff.mpr (by intro a ha; simp [hnd a ha])
  have hp : parseIds? g = some [] := by
    unfold parseIds?
    rw [hfil]
    rfl
  refine ⟨hp, ?_, ?_, ?_⟩ <;>
    simp [MovieViewSet.filter_queryset, truthy, hne, hp]

/-- Witness for C10: the parameter value consisting of the single
non-digit token used in the witness. -/
def gAbc : String := "abc"

/-- Witness for C10: with the parameter "abc" as genres, as actors, and as
both, the id set is empty and the one movie in the catalog is filtered
out. -/
theorem C10_nondigit_tokens_filter_empty_witness :
    parseIds? gAbc = some [] ∧
    MovieViewSet.filter_queryset [mAlien] none (some gAbc) none = some [] ∧
    MovieViewSet.filter_queryset [mAlien] none none (some gAbc) = some [] ∧
    MovieViewSet.filter_queryset [mAlien] none (some gAbc) (some gAbc) =
      some [] :=
  C10_nondigit_tokens_filter_empty [mAlien] none gAbc (by decide)
    (by decide)
